import Mathlib

/-!
Verification of the A2A protocol JSON-RPC dispatch core
(`src/a2a_protocol/server.py`, class `A2AServer`).

The dispatcher is embedded shallowly:

* The envelope types (`JSONRPCRequest`, `JSONRPCNotification`,
  `JSONRPCErrorResponse`) carry the fields the dispatcher reads.
  Method-specific params, domain messages and handler results stay
  abstract (`P`, `A`, `R`).
* The external validator collaborator (`MessageValidator`) is a record of
  functions; a Python call that may raise is a function into
  `Except String _`, the raised failure carried as its string description.
* The method registry is a lookup `String → Option handler`; a handler is
  `A → Except String R`.
* `handle_request`, `handle_notification` and `handle_jsonrpc` are direct
  translations of `A2AServer._handle_request`, `A2AServer._handle_notification`
  and `A2AServer._handle_jsonrpc`: each Python `try/except` becomes a match
  on the `Except` values produced inside its scope.
-/

namespace A2AProtocol

/-- Modelled from the spec: the Request envelope variant
(method, params, id) of `schemas.py`, which is outside the reviewed files;
the dispatcher reads exactly these three fields. -/
structure JSONRPCRequest (P : Type) where
  method : String
  params : P
  id : Option Nat
  deriving DecidableEq

/-- Modelled from the spec: the Notification envelope variant
(method, params, no id) of `schemas.py`. -/
structure JSONRPCNotification (P : Type) where
  method : String
  params : P
  deriving DecidableEq

/-- Modelled from the spec: the pre-formed error object produced when the
raw payload fails envelope-level parsing (`schemas.py`), wire shape
code / message / data / id. -/
structure JSONRPCErrorResponse where
  code : Int
  message : String
  datum : String
  id : Option Nat
  deriving DecidableEq

/-- What `MessageValidator.validate_jsonrpc_message` may hand back: one of
the three envelope variants, or (`other`) any value that is none of the
three `isinstance` classes checked in `_handle_jsonrpc`. -/
inductive ParsedMessage (P : Type) where
  | errorResponse (err : JSONRPCErrorResponse)
  | notification (note : JSONRPCNotification P)
  | request (req : JSONRPCRequest P)
  | other
  deriving DecidableEq

/-- A JSON-RPC response body: success object or error object. -/
inductive RPCResponse (R : Type) where
  | success (result : R) (id : Option Nat)
  | error (code : Int) (message : String) (datum : String) (id : Option Nat)
  deriving DecidableEq

/-- Modelled from the spec: `buildErrorObject(code, message, data, id)` of
the validator collaborator (`validation.py`, outside the reviewed files),
called as `MessageValidator._create_error_response(code, message, data, id)`
by the dispatcher. -/
def create_error_response {R : Type} (code : Int) (message : String)
    (datum : String) (id : Option Nat) : RPCResponse R :=
  RPCResponse.error code message datum id

/-- Modelled from the spec: `buildSuccessObject(result, id)` of the validator
collaborator, called as `MessageValidator.create_success_response`. -/
def create_success_response {R : Type} (result : R) (id : Option Nat) :
    RPCResponse R :=
  RPCResponse.success result id

/-- The validator collaborator, as the black box the dispatcher consumes:
each method is a pure function, and a call that may raise returns
`Except String _` with the failure's string description on the left. -/
structure MessageValidator (P A : Type) where
  validate_jsonrpc_message : String → Except String (ParsedMessage P)
  validate_a2a_message : String → P → Except String (Option A)
  validate_business_rules : A → Except String Bool

/-- The method registry `self.methods`: a lookup from method name to the
registered asynchronous handler, `None` when the name is unregistered. -/
def MethodRegistry (A R : Type) : Type :=
  String → Option (A → Except String R)

/-- `A2AServer._handle_request` (server.py lines 68-103): method resolution,
then inside one try/except the schema validation, business-rule validation
and handler invocation, any raise caught as Internal error -32603. -/
def handle_request {P A R : Type} (validator : MessageValidator P A)
    (methods : MethodRegistry A R) (rpc_request : JSONRPCRequest P) :
    RPCResponse R :=
  let method := rpc_request.method
  let params := rpc_request.params
  let msg_id := rpc_request.id
  match methods method with
  | none =>
      create_error_response (-32601) "Method not found"
        ("Method '" ++ method ++ "' not found") msg_id
  | some handler =>
      match validator.validate_a2a_message method params with
      | Except.error e =>
          create_error_response (-32603) "Internal error" e msg_id
      | Except.ok none =>
          create_error_response (-32602) "Invalid params"
            "Invalid A2A message parameters" msg_id
      | Except.ok (some a2a_message) =>
          match validator.validate_business_rules a2a_message with
          | Except.error e =>
              create_error_response (-32603) "Internal error" e msg_id
          | Except.ok false =>
              create_error_response (-32602) "Invalid params"
                "Business rule validation failed" msg_id
          | Except.ok true =>
              match handler a2a_message with
              | Except.error e =>
                  create_error_response (-32603) "Internal error" e msg_id
              | Except.ok result =>
                  create_success_response result msg_id

/-- The observable outcome of the fire-and-forget notification task: every
branch of `_handle_notification` either logs or completes; none builds a
response object. -/
inductive NotificationOutcome (R : Type) where
  | warnedUnknownMethod
  | warnedInvalidParams
  | handled (result : R)
  | loggedError (err : String)
  deriving DecidableEq

/-- `A2AServer._handle_notification` (server.py lines 105-122): unknown
methods and invalid parameters are logged, handler raises are logged, a
successful handler run is fire-and-forget. -/
def handle_notification {P A R : Type} (validator : MessageValidator P A)
    (methods : MethodRegistry A R) (note : JSONRPCNotification P) :
    NotificationOutcome R :=
  match methods note.method with
  | none => NotificationOutcome.warnedUnknownMethod
  | some handler =>
      match validator.validate_a2a_message note.method note.params with
      | Except.error e => NotificationOutcome.loggedError e
      | Except.ok none => NotificationOutcome.warnedInvalidParams
      | Except.ok (some a2a_message) =>
          match validator.validate_business_rules a2a_message with
          | Except.error e => NotificationOutcome.loggedError e
          | Except.ok false => NotificationOutcome.warnedInvalidParams
          | Except.ok true =>
              match handler a2a_message with
              | Except.error e => NotificationOutcome.loggedError e
              | Except.ok r => NotificationOutcome.handled r

/-- What `_handle_jsonrpc` hands back to the aiohttp transport: a JSON body,
the no-content sentinel (HTTP 204), or Python's implicit `None` when the
parsed message matches none of the three `isinstance` branches. -/
inductive TransportResult (R : Type) where
  | jsonResponse (response : RPCResponse R)
  | noContent
  | noResponse
  deriving DecidableEq

/-- `A2AServer._handle_jsonrpc` (server.py lines 39-66): parse the raw
payload, return a parsed error object directly, answer a notification with
204 before its background task runs, await a request, and convert any raise
escaping those steps to Internal error -32603 with id null. -/
def handle_jsonrpc {P A R : Type} (validator : MessageValidator P A)
    (methods : MethodRegistry A R) (raw_data : String) : TransportResult R :=
  match validator.validate_jsonrpc_message raw_data with
  | Except.error e =>
      TransportResult.jsonResponse
        (create_error_response (-32603) "Internal error" e none)
  | Except.ok (ParsedMessage.errorResponse err) =>
      TransportResult.jsonResponse
        (RPCResponse.error err.code err.message err.datum err.id)
  | Except.ok (ParsedMessage.notification _) =>
      TransportResult.noContent
  | Except.ok (ParsedMessage.request req) =>
      TransportResult.jsonResponse (handle_request validator methods req)
  | Except.ok ParsedMessage.other =>
      TransportResult.noResponse

/-- Steps 2-4 of request dispatch (method resolution, schema validation,
business rules), the prefix of `_handle_request` before the handler is
invoked: it consults the registry only through membership of the method
name. `Except.error resp` is the structured error those steps produce,
`Except.ok a` the validated domain message handed to step 5. -/
def classify_request {P A : Type} (R : Type) (validator : MessageValidator P A)
    (registered : String → Bool) (rpc_request : JSONRPCRequest P) :
    Except (RPCResponse R) A :=
  let method := rpc_request.method
  let msg_id := rpc_request.id
  if registered method then
    match validator.validate_a2a_message method rpc_request.params with
    | Except.error e =>
        Except.error (create_error_response (-32603) "Internal error" e msg_id)
    | Except.ok none =>
        Except.error (create_error_response (-32602) "Invalid params"
          "Invalid A2A message parameters" msg_id)
    | Except.ok (some a2a_message) =>
        match validator.validate_business_rules a2a_message with
        | Except.error e =>
            Except.error
              (create_error_response (-32603) "Internal error" e msg_id)
        | Except.ok false =>
            Except.error (create_error_response (-32602) "Invalid params"
              "Business rule validation failed" msg_id)
        | Except.ok true => Except.ok a2a_message
  else
    Except.error (create_error_response (-32601) "Method not found"
      ("Method '" ++ rpc_request.method ++ "' not found") msg_id)

/-- `A2AServer.__init__` lines 25-29: the env-var fallbacks are computed into
`self.host` / `self.port` and then both attributes are re-assigned from the
raw constructor arguments. Returns the final (host, port) attribute pair;
the argument defaults are `None`. Python falsiness of `or` is modelled for
the empty string and for port 0. -/
def a2aServerInitHostPort (host : Option String) (port : Option Nat)
    (envHost : String) (envPort : Nat) : Option String × Option Nat :=
  let host₁ : String :=
    match host with
    | some h => if h = "" then envHost else h
    | none => envHost
  let port₁ : Nat :=
    match port with
    | some p => if p = 0 then envPort else p
    | none => envPort
  let host₂ : Option String := host
  let port₂ : Option Nat := port
  let _ := host₁
  let _ := port₁
  (host₂, port₂)

/-- The error code field of a response, `none` on a success object. -/
def RPCResponse.codeField {R : Type} : RPCResponse R → Option Int
  | RPCResponse.success _ _ => none
  | RPCResponse.error code _ _ _ => some code

/-- The error message field of a response, `none` on a success object. -/
def RPCResponse.messageField {R : Type} : RPCResponse R → Option String
  | RPCResponse.success _ _ => none
  | RPCResponse.error _ message _ _ => some message

/-- The error data field of a response, `none` on a success object. -/
def RPCResponse.datumField {R : Type} : RPCResponse R → Option String
  | RPCResponse.success _ _ => none
  | RPCResponse.error _ _ datum _ => some datum

/-! Concrete instances (params, domain messages and results all `Nat`)
used to exercise the dispatcher on closed inputs. -/

/-- A handler that succeeds: returns its domain message plus one. -/
def demoHandler : Nat → Except String Nat := fun a => Except.ok (a + 1)

/-- A handler that raises. -/
def raisingHandler : Nat → Except String Nat := fun _ => Except.error "kaput"

/-- A registry with the single method name PING bound to `demoHandler`. -/
def demoMethods : MethodRegistry Nat Nat :=
  fun name => if name = "PING" then some demoHandler else none

/-- A registry with the single method name PING bound to `raisingHandler`. -/
def raisingMethods : MethodRegistry Nat Nat :=
  fun name => if name = "PING" then some raisingHandler else none

/-- An envelope parser mapping fixed raw payloads to each parse outcome. -/
def demoParse : String → Except String (ParsedMessage Nat) :=
  fun raw =>
    if raw = "note" then
      Except.ok (ParsedMessage.notification { method := "PING", params := 7 })
    else if raw = "bad json" then Except.error "Expecting value"
    else if raw = "weird" then Except.ok ParsedMessage.other
    else Except.ok (ParsedMessage.request
      { method := "PING", params := 42, id := some 1 })

/-- A validator on which every stage succeeds. -/
def demoValidator : MessageValidator Nat Nat :=
  { validate_jsonrpc_message := demoParse
    validate_a2a_message := fun _ p => Except.ok (some p)
    validate_business_rules := fun _ => Except.ok true }

/-- A validator whose `validate_a2a_message` raises. -/
def raisingValidator : MessageValidator Nat Nat :=
  { validate_jsonrpc_message := demoParse
    validate_a2a_message := fun _ _ => Except.error "boom"
    validate_business_rules := fun _ => Except.ok true }

/-- A validator that fails schema validation on params 0 (returns `none`) and
fails business rules on every other params value. -/
def twoFailValidator : MessageValidator Nat Nat :=
  { validate_jsonrpc_message := demoParse
    validate_a2a_message := fun _ p =>
      if p = 0 then Except.ok none else Except.ok (some p)
    validate_business_rules := fun _ => Except.ok false }

/-- A request for the registered method PING with params 42 and id 1. -/
def demoRequest : JSONRPCRequest Nat :=
  { method := "PING", params := 42, id := some 1 }

/-- A request for the registered method PING with params 0 and id 2. -/
def demoRequest0 : JSONRPCRequest Nat :=
  { method := "PING", params := 0, id := some 2 }

/-- A request for the registered method PING with params 5 and id 3. -/
def demoRequest5 : JSONRPCRequest Nat :=
  { method := "PING", params := 5, id := some 3 }

/-- A request for the unregistered method UNKNOWN with id 2. -/
def unknownRequest : JSONRPCRequest Nat :=
  { method := "UNKNOWN", params := 0, id := some 2 }

/-- C1: for every well-formed Request whose method is registered, whose
params pass schema validation, and whose domain message passes business-rule
validation, `handle_request` returns a success object whose result is the
value returned by the registered handler and whose id equals the id of the
input Request. -/
theorem handle_request_success {P A R : Type} (validator : MessageValidator P A)
    (methods : MethodRegistry A R) (r : JSONRPCRequest P)
    (handler : A → Except String R) (a : A) (result : R)
    (hreg : methods r.method = some handler)
    (hval : validator.validate_a2a_message r.method r.params
      = Except.ok (some a))
    (hrules : validator.validate_business_rules a = Except.ok true)
    (hhandler : handler a = Except.ok result) :
    handle_request validator methods r = RPCResponse.success result r.id := by
  unfold handle_request
  simp only [hreg, hval, hrules, hhandler, create_success_response]

/-- Witness for C1 at the concrete PING request with params 42 and id 1. -/
theorem handle_request_success_witness :
    (demoMethods "PING" = some demoHandler
      ∧ demoValidator.validate_a2a_message "PING" 42 = Except.ok (some 42)
      ∧ demoValidator.validate_business_rules 42 = Except.ok true
      ∧ demoHandler 42 = Except.ok 43)
    ∧ handle_request demoValidator demoMethods demoRequest
      = RPCResponse.success 43 (some 1) :=
  ⟨⟨rfl, rfl, rfl, rfl⟩,
    handle_request_success demoValidator demoMethods demoRequest
      demoHandler 42 43 rfl rfl rfl rfl⟩

/-- C3: for every Request whose method name is not registered,
`handle_request` returns error -32601 with the input's id and a data payload
carrying the method name, for every validator (method resolution happens
before parameter validation). -/
theorem unknown_method_error {P A R : Type} (validator : MessageValidator P A)
    (methods : MethodRegistry A R) (r : JSONRPCRequest P)
    (hreg : methods r.method = none) :
    handle_request (R := R) validator methods r
      = RPCResponse.error (-32601) "Method not found"
          ("Method '" ++ r.method ++ "' not found") r.id := by
  unfold handle_request
  simp only [hreg, create_error_response]

/-- Witness for C3 at the concrete UNKNOWN request with id 2. -/
theorem unknown_method_error_witness :
    demoMethods "UNKNOWN" = none
    ∧ handle_request demoValidator demoMethods unknownRequest
      = RPCResponse.error (-32601) "Method not found"
          ("Method '" ++ "UNKNOWN" ++ "' not found") (some 2) :=
  ⟨rfl, unknown_method_error demoValidator demoMethods unknownRequest rfl⟩

/-- C5: for every Request with a registered method whose handler raises,
`handle_request` returns error -32603 with the input's id and the raised
failure's string description in the data field. -/
theorem handler_raise_internal_error {P A R : Type}
    (validator : MessageValidator P A) (methods : MethodRegistry A R)
    (r : JSONRPCRequest P) (handler : A → Except String R) (a : A) (e : String)
    (hreg : methods r.method = some handler)
    (hval : validator.validate_a2a_message r.method r.params
      = Except.ok (some a))
    (hrules : validator.validate_business_rules a = Except.ok true)
    (hhandler : handler a = Except.error e) :
    handle_request validator methods r
      = RPCResponse.error (-32603) "Internal error" e r.id := by
  unfold handle_request
  simp only [hreg, hval, hrules, hhandler, create_error_response]

/-- Witness for C5 at the concrete PING request whose handler raises. -/
theorem handler_raise_internal_error_witness :
    (raisingMethods "PING" = some raisingHandler
      ∧ demoValidator.validate_a2a_message "PING" 42 = Except.ok (some 42)
      ∧ demoValidator.validate_business_rules 42 = Except.ok true
      ∧ raisingHandler 42 = Except.error "kaput")
    ∧ handle_request demoValidator raisingMethods demoRequest
      = RPCResponse.error (-32603) "Internal error" "kaput" (some 1) :=
  ⟨⟨rfl, rfl, rfl, rfl⟩,
    handler_raise_internal_error demoValidator raisingMethods demoRequest
      raisingHandler 42 "kaput" rfl rfl rfl rfl⟩

/-- C10: for every construction of A2AServer with no host/port arguments,
the final host and port attributes are both None: the env-var fallbacks
computed first are unconditionally overwritten by the raw arguments. -/
theorem init_host_port_none (envHost : String) (envPort : Nat) :
    a2aServerInitHostPort none none envHost envPort = (none, none) := rfl

/-- C2: for every raw payload parsed as a Notification, the transport-facing
call returns the no-content sentinel (HTTP 204) and never a JSON body, for
every registry and validator — so for every outcome of the detached
notification task, including handler failure. -/
theorem notification_no_content {P A R : Type} (validator : MessageValidator P A)
    (methods : MethodRegistry A R) (raw : String) (note : JSONRPCNotification P)
    (hparse : validator.validate_jsonrpc_message raw
      = Except.ok (ParsedMessage.notification note)) :
    handle_jsonrpc validator methods raw = TransportResult.noContent
      ∧ ∀ resp : RPCResponse R,
          handle_jsonrpc validator methods raw
            ≠ TransportResult.jsonResponse resp := by
  unfold handle_jsonrpc
  rw [hparse]
  exact ⟨rfl, fun resp h => TransportResult.noConfusion h⟩

/-- Witness for C2 at the concrete raw payload parsed as a PING notification. -/
theorem notification_no_content_witness :
    demoValidator.validate_jsonrpc_message "note"
      = Except.ok (ParsedMessage.notification { method := "PING", params := 7 })
    ∧ (handle_jsonrpc demoValidator demoMethods "note"
        = TransportResult.noContent
      ∧ ∀ resp : RPCResponse Nat,
          handle_jsonrpc demoValidator demoMethods "note"
            ≠ TransportResult.jsonResponse resp) :=
  ⟨rfl, notification_no_content demoValidator demoMethods "note"
    { method := "PING", params := 7 } rfl⟩

/-- C7: for every raw payload on which the envelope parse raises, the
transport-facing call converts the failure to an Internal error response
with code -32603 and id null instead of propagating it. -/
theorem catch_all_internal_error {P A R : Type}
    (validator : MessageValidator P A) (methods : MethodRegistry A R)
    (raw : String) (e : String)
    (hraise : validator.validate_jsonrpc_message raw = Except.error e) :
    handle_jsonrpc (R := R) validator methods raw
      = TransportResult.jsonResponse
          (RPCResponse.error (-32603) "Internal error" e none) := by
  unfold handle_jsonrpc
  rw [hraise]
  rfl

/-- Witness for C7 at the concrete raw payload that is not valid JSON. -/
theorem catch_all_internal_error_witness :
    demoValidator.validate_jsonrpc_message "bad json"
      = Except.error "Expecting value"
    ∧ handle_jsonrpc demoValidator demoMethods "bad json"
      = TransportResult.jsonResponse
          (RPCResponse.error (-32603) "Internal error" "Expecting value" none) :=
  ⟨rfl, catch_all_internal_error demoValidator demoMethods "bad json"
    "Expecting value" rfl⟩

/-- C9: if the envelope parser hands back a value that is none of the three
envelope variants, the transport-facing call returns neither a JSON body nor
the no-content sentinel but Python's implicit None. -/
theorem unmatched_parse_no_response {P A R : Type}
    (validator : MessageValidator P A) (methods : MethodRegistry A R)
    (raw : String)
    (hparse : validator.validate_jsonrpc_message raw
      = Except.ok ParsedMessage.other) :
    handle_jsonrpc validator methods raw = TransportResult.noResponse
      ∧ handle_jsonrpc validator methods raw ≠ TransportResult.noContent
      ∧ ∀ resp : RPCResponse R,
          handle_jsonrpc validator methods raw
            ≠ TransportResult.jsonResponse resp := by
  unfold handle_jsonrpc
  rw [hparse]
  exact ⟨rfl, fun h => TransportResult.noConfusion h,
    fun resp h => TransportResult.noConfusion h⟩

/-- Witness for C9 at the concrete raw payload whose parse matches no
envelope variant. -/
theorem unmatched_parse_no_response_witness :
    demoValidator.validate_jsonrpc_message "weird"
      = Except.ok ParsedMessage.other
    ∧ (handle_jsonrpc demoValidator demoMethods "weird"
        = TransportResult.noResponse
      ∧ handle_jsonrpc demoValidator demoMethods "weird"
        ≠ TransportResult.noContent
      ∧ ∀ resp : RPCResponse Nat,
          handle_jsonrpc demoValidator demoMethods "weird"
            ≠ TransportResult.jsonResponse resp) :=
  ⟨rfl, unmatched_parse_no_response demoValidator demoMethods "weird" rfl⟩

/-- C4 counterexample: with a registered method and a domain validator that
raises, `handle_request` returns Internal error -32603, not the Invalid
params error -32602 that a schema mismatch produces, refuting the claim that
a validator raise is surfaced the same way as a schema mismatch. -/
theorem validator_raise_counterexample :
    handle_request raisingValidator demoMethods demoRequest
      = RPCResponse.error (-32603) "Internal error" "boom" (some 1)
    ∧ handle_request raisingValidator demoMethods demoRequest
      ≠ RPCResponse.error (-32602) "Invalid params"
          "Invalid A2A message parameters" (some 1)
    ∧ (handle_request raisingValidator demoMethods demoRequest).codeField
      ≠ some (-32602) := by
  refine ⟨rfl, ?_, ?_⟩ <;> decide

/-- C4 amended: for every Request with a registered method whose domain
validator raises during parameter validation, `handle_request` returns an
Internal error -32603 correlated to the request's id, with the raised
failure's string description in the data field. -/
theorem validator_raise_internal_error {P A R : Type}
    (validator : MessageValidator P A) (methods : MethodRegistry A R)
    (r : JSONRPCRequest P) (handler : A → Except String R) (e : String)
    (hreg : methods r.method = some handler)
    (hval : validator.validate_a2a_message r.method r.params
      = Except.error e) :
    handle_request validator methods r
      = RPCResponse.error (-32603) "Internal error" e r.id := by
  unfold handle_request
  simp only [hreg, hval, create_error_response]

/-- Witness for the amended C4 at the concrete PING request whose validator
raises. -/
theorem validator_raise_internal_error_witness :
    (demoMethods "PING" = some demoHandler
      ∧ raisingValidator.validate_a2a_message "PING" 42
        = Except.error "boom")
    ∧ handle_request raisingValidator demoMethods demoRequest
      = RPCResponse.error (-32603) "Internal error" "boom" (some 1) :=
  ⟨⟨rfl, rfl⟩,
    validator_raise_internal_error raisingValidator demoMethods demoRequest
      demoHandler "boom" rfl rfl⟩

/-- C6 counterexample: a schema-validation failure (params 0) and a
business-rule failure (params 5) on the same registered method both carry
code -32602 and the identical message field "Invalid params" — the message
field does not distinguish the two causes; only the data field differs. -/
theorem invalid_params_same_message :
    (handle_request twoFailValidator demoMethods demoRequest0).codeField
      = some (-32602)
    ∧ (handle_request twoFailValidator demoMethods demoRequest5).codeField
      = some (-32602)
    ∧ (handle_request twoFailValidator demoMethods demoRequest0).messageField
      = (handle_request twoFailValidator demoMethods demoRequest5).messageField
    ∧ (handle_request twoFailValidator demoMethods demoRequest0).datumField
      ≠ (handle_request twoFailValidator demoMethods demoRequest5).datumField := by
  refine ⟨?_, ?_, ?_, ?_⟩ <;> decide

/-- C6 amended: schema-validation failure and business-rule failure both
yield error -32602 correlated to the request's id and share the message text
"Invalid params"; the two causes are distinguished by the data field
("Invalid A2A message parameters" versus "Business rule validation failed"),
not by the message field. -/
theorem invalid_params_two_causes {P A R : Type}
    (validator : MessageValidator P A) (methods : MethodRegistry A R)
    (r₁ r₂ : JSONRPCRequest P) (handler₁ handler₂ : A → Except String R)
    (a : A)
    (hreg₁ : methods r₁.method = some handler₁)
    (hreg₂ : methods r₂.method = some handler₂)
    (hschema : validator.validate_a2a_message r₁.method r₁.params
      = Except.ok none)
    (hmsg : validator.validate_a2a_message r₂.method r₂.params
      = Except.ok (some a))
    (hrules : validator.validate_business_rules a = Except.ok false) :
    handle_request validator methods r₁
      = RPCResponse.error (-32602) "Invalid params"
          "Invalid A2A message parameters" r₁.id
    ∧ handle_request validator methods r₂
      = RPCResponse.error (-32602) "Invalid params"
          "Business rule validation failed" r₂.id
    ∧ (handle_request validator methods r₁).messageField
      = (handle_request validator methods r₂).messageField
    ∧ (handle_request validator methods r₁).datumField
      ≠ (handle_request validator methods r₂).datumField := by
  have h₁ : handle_request validator methods r₁
      = RPCResponse.error (-32602) "Invalid params"
          "Invalid A2A message parameters" r₁.id := by
    unfold handle_request
    simp only [hreg₁, hschema, create_error_response]
  have h₂ : handle_request validator methods r₂
      = RPCResponse.error (-32602) "Invalid params"
          "Business rule validation failed" r₂.id := by
    unfold handle_request
    simp only [hreg₂, hmsg, hrules, create_error_response]
  refine ⟨h₁, h₂, ?_, ?_⟩
  · rw [h₁, h₂]
    rfl
  · rw [h₁, h₂]
    simp only [RPCResponse.datumField]
    decide

/-- Witness for the amended C6 at two concrete PING requests, one failing
schema validation and one failing business rules. -/
theorem invalid_params_two_causes_witness :
    (demoMethods "PING" = some demoHandler
      ∧ twoFailValidator.validate_a2a_message "PING" 0 = Except.ok none
      ∧ twoFailValidator.validate_a2a_message "PING" 5 = Except.ok (some 5)
      ∧ twoFailValidator.validate_business_rules 5 = Except.ok false)
    ∧ (handle_request twoFailValidator demoMethods demoRequest0
        = RPCResponse.error (-32602) "Invalid params"
            "Invalid A2A message parameters" (some 2)
      ∧ handle_request twoFailValidator demoMethods demoRequest5
        = RPCResponse.error (-32602) "Invalid params"
            "Business rule validation failed" (some 3)
      ∧ (handle_request twoFailValidator demoMethods demoRequest0).messageField
        = (handle_request twoFailValidator demoMethods demoRequest5).messageField
      ∧ (handle_request twoFailValidator demoMethods demoRequest0).datumField
        ≠ (handle_request twoFailValidator demoMethods demoRequest5).datumField) :=
  ⟨⟨rfl, rfl, rfl, rfl⟩,
    invalid_params_two_causes twoFailValidator demoMethods
      demoRequest0 demoRequest5 demoHandler demoHandler 5 rfl rfl rfl rfl rfl⟩

/-- C8: dispatch-layer classification (steps 2-4) is a pure function of
(registry membership, payload): for two registries that agree on whether the
request's method is registered — whatever handlers they bind — the
classification is identical; when it classifies to an error, both runs of
`handle_request` return exactly that error; when it validates a domain
message, both runs proceed to a registered handler. -/
theorem dispatch_classification_pure {P A R : Type}
    (validator : MessageValidator P A) (methods₁ methods₂ : MethodRegistry A R)
    (r : JSONRPCRequest P)
    (hmem : (methods₁ r.method).isSome = (methods₂ r.method).isSome) :
    classify_request R validator (fun m => (methods₁ m).isSome) r
      = classify_request R validator (fun m => (methods₂ m).isSome) r
    ∧ (∀ resp : RPCResponse R,
        classify_request R validator (fun m => (methods₁ m).isSome) r
          = Except.error resp →
        handle_request validator methods₁ r = resp
          ∧ handle_request validator methods₂ r = resp)
    ∧ (∀ a : A,
        classify_request R validator (fun m => (methods₁ m).isSome) r
          = Except.ok a →
        (methods₁ r.method).isSome = true
          ∧ (methods₂ r.method).isSome = true) := by
  have hcong : classify_request R validator (fun m => (methods₁ m).isSome) r
      = classify_request R validator (fun m => (methods₂ m).isSome) r := by
    simp only [classify_request]
    simp only [hmem]
  refine ⟨hcong, ?_, ?_⟩
  · intro resp hresp
    cases h₁ : methods₁ r.method with
    | none =>
      have h₂ : methods₂ r.method = none := by
        rw [h₁] at hmem
        cases h₂ : methods₂ r.method with
        | none => rfl
        | some g => rw [h₂] at hmem; simp at hmem
      simp [classify_request, h₁, create_error_response] at hresp
      constructor <;>
        · unfold handle_request
          simp [h₁, h₂, create_error_response, ← hresp]
    | some handler₁ =>
      have h₂ : ∃ handler₂, methods₂ r.method = some handler₂ := by
        rw [h₁] at hmem
        cases h₂ : methods₂ r.method with
        | none => rw [h₂] at hmem; simp at hmem
        | some g => exact ⟨g, rfl⟩
      obtain ⟨handler₂, h₂⟩ := h₂
      cases hv : validator.validate_a2a_message r.method r.params with
      | error e =>
        simp [classify_request, h₁, hv, create_error_response] at hresp
        constructor <;>
          · unfold handle_request
            simp [h₁, h₂, hv, create_error_response, ← hresp]
      | ok oa =>
        cases oa with
        | none =>
          simp [classify_request, h₁, hv, create_error_response] at hresp
          constructor <;>
            · unfold handle_request
              simp [h₁, h₂, hv, create_error_response, ← hresp]
        | some a =>
          cases hb : validator.validate_business_rules a with
          | error e =>
            simp [classify_request, h₁, hv, hb, create_error_response] at hresp
            constructor <;>
              · unfold handle_request
                simp [h₁, h₂, hv, hb, create_error_response, ← hresp]
          | ok b =>
            cases b with
            | false =>
              simp [classify_request, h₁, hv, hb, create_error_response] at hresp
              constructor <;>
                · unfold handle_request
                  simp [h₁, h₂, hv, hb, create_error_response, ← hresp]
            | true =>
              simp [classify_request, h₁, hv, hb] at hresp
  · intro a ha
    cases h₁ : methods₁ r.method with
    | none => simp [classify_request, h₁, create_error_response] at ha
    | some handler₁ =>
      constructor
      · rfl
      · rw [← hmem, h₁]
        rfl

/-- Witness for C8 at the concrete PING request against two registries that
both register PING but bind different handler bodies. -/
theorem dispatch_classification_pure_witness :
    (demoMethods "PING").isSome = (raisingMethods "PING").isSome
    ∧ (classify_request Nat demoValidator (fun m => (demoMethods m).isSome)
          demoRequest
        = classify_request Nat demoValidator
            (fun m => (raisingMethods m).isSome) demoRequest
      ∧ (∀ resp : RPCResponse Nat,
          classify_request Nat demoValidator
              (fun m => (demoMethods m).isSome) demoRequest
            = Except.error resp →
          handle_request demoValidator demoMethods demoRequest = resp
            ∧ handle_request demoValidator raisingMethods demoRequest = resp)
      ∧ (∀ a : Nat,
          classify_request Nat demoValidator
              (fun m => (demoMethods m).isSome) demoRequest
            = Except.ok a →
          (demoMethods "PING").isSome = true
            ∧ (raisingMethods "PING").isSome = true)) :=
  ⟨rfl, dispatch_classification_pure demoValidator demoMethods raisingMethods
    demoRequest rfl⟩

end A2AProtocol
